import Mathlib

/-!
Shallow embedding of the execution bridge of `aioduckdb` (`aioduckdb/core.py`):
the work queue, the worker loop (`Connection.run`), future resolution, and the
connection lifecycle (`_execute`, `_connect`, `__await__`, `close`).

Modelling conventions:
* Python exception values are `PyErr`; the Boolean field `isExc` records
  whether the value is an instance of `Exception` (as opposed to a bare
  `BaseException` such as `KeyboardInterrupt`), which decides whether an
  `except Exception:` clause catches it.  `except BaseException:` catches
  every `PyErr`.
* A queued operation (`partial(fn, *args)`) is opaque to the bridge; the only
  thing the worker observes is its outcome when called, so an operation is
  embedded as its outcome `Except PyErr Nat` (values are opaque, taken as
  `Nat` handles/ids).
* An `asyncio` event loop is identified by a `Nat`; a future is bound to the
  loop that created it (`get_loop`), and `call_soon_threadsafe` is embedded as
  a `Callback` message addressed to that loop — the worker thread never writes
  a future directly, it only emits such messages.
* The worker thread runs the items of the FIFO queue `_tx` one at a time, in
  order; `runStep` embeds a single iteration of the `while True:` loop in
  `Connection.run` and `runDrain` its processing of a queue segment.
-/

namespace Aioduckdb

/-- A Python exception value. `isExc` is true when the value is an instance of
`Exception`; it is false for bare `BaseException`s such as
`KeyboardInterrupt` or `SystemExit`, which `except Exception:` does not
catch. -/
structure PyErr where
  msg : String
  isExc : Bool
deriving DecidableEq, Repr

/-- An `asyncio` future, as the bridge uses it: a done flag and, once
resolved, a value or an exception.  (A future abandoned/cancelled by its
caller also has `done = true`.) -/
structure Future where
  done : Bool
  result : Option (Except PyErr Nat)

/-- The guarded resolution used by the worker loop (`core.py` lines 122-124):
`if not fut.done(): fut.set_result(result)`. -/
def set_result (fut : Future) (result : Nat) : Future :=
  if fut.done then fut else { done := true, result := some (Except.ok result) }

/-- The guarded resolution used by the worker loop (`core.py` lines 130-132):
`if not fut.done(): fut.set_exception(e)`. -/
def set_exception (fut : Future) (e : PyErr) : Future :=
  if fut.done then fut else { done := true, result := some (Except.error e) }

/-- A work item, the tuple `(future, function)` put on `self._tx` by
`_execute` (`core.py` line 144).  `futId` identifies the future, `loopId` is
the event loop the future is bound to (`get_loop(future)`), and `function` is
the queued operation, embedded as its outcome when called. -/
structure WorkItem where
  futId : Nat
  loopId : Nat
  function : Except PyErr Nat

/-- A `call_soon_threadsafe` message: the worker loop asks event loop
`targetLoop` to run `set_result`/`set_exception` on future `futId` with the
given outcome (`core.py` lines 126 and 134). -/
structure Callback where
  targetLoop : Nat
  futId : Nat
  outcome : Except PyErr Nat

/-- Delivery of a callback on its target loop: the posted closure runs
`set_result` or `set_exception` under the `fut.done()` guard. -/
def deliver (fut : Future) (cb : Callback) : Future :=
  match cb.outcome with
  | Except.ok v => set_result fut v
  | Except.error e => set_exception fut e

/-- The body of one iteration of `Connection.run` once an item has been
dequeued (`core.py` lines 117-134): call `function()`; on normal return post
`set_result`, on any `BaseException` post `set_exception`; either way the
message goes to `get_loop(future)`, the loop the submitting caller created
the future on. -/
def runItem (item : WorkItem) : Callback :=
  match item.function with
  | Except.ok result => ⟨item.loopId, item.futId, Except.ok result⟩
  | Except.error e => ⟨item.loopId, item.futId, Except.error e⟩

/-- Outcome of one iteration of the `while True:` loop in `Connection.run`. -/
inductive StepResult where
  | dispatched (cb : Callback) (rest : List WorkItem)
  | idle
  | terminated

/-- One iteration of the worker loop (`core.py` lines 107-134): dequeue with a
0.1 s timeout; on `Empty` continue if `self._running` else break; on an item
execute it and post its resolution. -/
def runStep (running : Bool) (tx : List WorkItem) : StepResult :=
  match tx with
  | [] => if running then StepResult.idle else StepResult.terminated
  | item :: rest => StepResult.dispatched (runItem item) rest

/-- The worker loop's processing of a queue segment: items are dequeued and
executed strictly one at a time, head first, each producing exactly one
resolution callback.  The `running` flag plays no role while the queue is
nonempty (`core.py` lines 107-116), so the same function describes the loop
both before and after `close()` has set `_running = False`. -/
def runDrain : List WorkItem → List Callback
  | [] => []
  | item :: rest => runItem item :: runDrain rest

/-- The bridge-relevant state of an `aioduckdb.Connection` (`core.py` lines
60-72), plus `started`, the `threading.Thread` started-flag consulted by
`Thread.start()`, and `nextFut`, a supply of fresh future ids.  `_connector`
is the zero-argument bootstrap callable, embedded as its outcome. -/
structure Connection where
  _running : Bool
  _connection : Option Nat
  _connector : Except PyErr Nat
  _tx : List WorkItem
  nextFut : Nat
  started : Bool

/-- `Connection._execute` (`core.py` lines 136-146), synchronous phase: if
`not self._running or not self._connection`, raise
`ValueError("Connection closed")` without touching the queue; otherwise
create a future bound to the caller's event loop, enqueue
`(future, function)` and hand the future id back to be awaited. -/
def Connection._execute (s : Connection) (callerLoop : Nat)
    (fn : Except PyErr Nat) : Connection × Except PyErr Nat :=
  if !s._running || s._connection.isNone then
    (s, Except.error ⟨"Connection closed", true⟩)
  else
    ({ s with _tx := s._tx ++ [⟨s.nextFut, callerLoop, fn⟩],
              nextFut := s.nextFut + 1 },
     Except.ok s.nextFut)

/-- `Connection._connect` (`core.py` lines 148-160): if a connection handle is
already stored, return `self` with no side effect; otherwise enqueue
`(future, self._connector)`, await the future — whose outcome is what the
worker loop delivers for that item, embedded by `runItem` — and store the
handle.  The `except Exception:` clause resets `_running`/`_connection` only
when the failure is an `Exception`; a bare `BaseException` propagates without
entering the handler, leaving the state untouched. -/
def Connection._connect (s : Connection) (callerLoop : Nat) :
    Connection × Except PyErr Unit :=
  match s._connection with
  | some _ => (s, Except.ok ())
  | none =>
    match (runItem ⟨s.nextFut, callerLoop, s._connector⟩).outcome with
    | Except.ok h =>
      ({ s with _connection := some h, nextFut := s.nextFut + 1 },
       Except.ok ())
    | Except.error e =>
      if e.isExc then
        ({ s with _running := false, _connection := none,
                  nextFut := s.nextFut + 1 },
         Except.error e)
      else
        ({ s with nextFut := s.nextFut + 1 }, Except.error e)

/-- `threading.Thread.start` as `Connection.__await__` invokes it (`core.py`
line 163): raises `RuntimeError("threads can only be started once")` if the
thread was already started, otherwise marks it started. -/
def Connection.start (s : Connection) : Except PyErr Connection :=
  if s.started then Except.error ⟨"threads can only be started once", true⟩
  else Except.ok { s with started := true }

/-- `Connection.__await__` (`core.py` lines 162-164): `self.start()` then
`self._connect()`.  If `start` raises, `_connect` is never reached. -/
def Connection.await_ (s : Connection) (callerLoop : Nat) :
    Connection × Except PyErr Unit :=
  match s.start with
  | Except.error e => (s, Except.error e)
  | Except.ok s1 => s1._connect callerLoop

/-- `Connection.close` (`core.py` lines 199-208):
`try: await self._execute(self._conn.close)` — where evaluating `self._conn`
raises `ValueError("no active connection")` if no handle is stored, and
`_execute` raises `ValueError("Connection closed")` if `_running` is false —
`except Exception: raise`, `finally: self._running = False;
self._connection = None`.  `teardown` is the outcome the worker loop delivers
for the queued `conn.close` operation.  The `finally` block runs on every
path, so the final state is always closed; the re-raise means a teardown
failure is reported, never swallowed. -/
def Connection.close (s : Connection) (teardown : Except PyErr Unit) :
    Connection × Except PyErr Unit :=
  let attempt : Except PyErr Unit :=
    match s._connection with
    | none => Except.error ⟨"no active connection", true⟩
    | some _ =>
      if !s._running then Except.error ⟨"Connection closed", true⟩
      else teardown
  ({ s with _running := false, _connection := none }, attempt)

/-!
Small-step interleaving model for the temporal ordering claim.  Any number of
callers may interleave `submit` steps (the `put_nowait` in `_execute`) with
the single worker thread's `pop` (the `get` at `core.py` line 112) and
`finish` (return of `function()` at line 119) steps.  Work items are
identified by their enqueue sequence number; the trace records enqueue events
and the begin/end of each execution window. -/

/-- Trace events: an item is enqueued; the worker begins executing an item;
the worker finishes executing an item. -/
inductive Ev where
  | enqueue (id : Nat)
  | execBegin (id : Nat)
  | execEnd (id : Nat)
deriving DecidableEq, Repr

/-- Global state of the interleaved system: fresh-id supply, FIFO queue
contents, the item the worker thread is currently inside (if any), and the
event trace so far. -/
structure Sched where
  nextId : Nat
  queue : List Nat
  executing : Option Nat
  trace : List Ev
deriving DecidableEq, Repr

def Sched.init : Sched := ⟨0, [], none, []⟩

/-- One step of the interleaved system.  `submit` is any caller's
`put_nowait`; `pop` is the worker dequeuing the head of the FIFO queue, which
it can only do between executions (`executing = none`), because
`Connection.run` calls `function()` synchronously and only returns to the
`get` after it completes; `finish` is `function()` returning or raising. -/
inductive SchedStep : Sched → Sched → Prop where
  | submit (s : Sched) :
      SchedStep s ⟨s.nextId + 1, s.queue ++ [s.nextId], s.executing,
                   s.trace ++ [Ev.enqueue s.nextId]⟩
  | pop (s : Sched) (i : Nat) (rest : List Nat)
      (hq : s.queue = i :: rest) (hx : s.executing = none) :
      SchedStep s ⟨s.nextId, rest, some i, s.trace ++ [Ev.execBegin i]⟩
  | finish (s : Sched) (i : Nat) (hx : s.executing = some i) :
      SchedStep s ⟨s.nextId, s.queue, none, s.trace ++ [Ev.execEnd i]⟩

/-- States reachable from the initial state by interleaved steps. -/
inductive Reachable : Sched → Prop where
  | init : Reachable Sched.init
  | step {s t : Sched} : Reachable s → SchedStep s t → Reachable t

/-- Ids of the enqueue events of a trace, in order. -/
def enqIds : List Ev → List Nat
  | [] => []
  | Ev.enqueue i :: es => i :: enqIds es
  | Ev.execBegin _ :: es => enqIds es
  | Ev.execEnd _ :: es => enqIds es

/-- Ids of the execution-begin events of a trace, in order. -/
def beginIds : List Ev → List Nat
  | [] => []
  | Ev.enqueue _ :: es => beginIds es
  | Ev.execBegin i :: es => i :: beginIds es
  | Ev.execEnd _ :: es => beginIds es

/-- Ids of the execution-end events of a trace, in order. -/
def endIds : List Ev → List Nat
  | [] => []
  | Ev.enqueue _ :: es => endIds es
  | Ev.execBegin _ :: es => endIds es
  | Ev.execEnd i :: es => i :: endIds es

/-- Window-counting automaton: tracks how many execution windows are open,
failing (to `none`) if an execution ever begins while another is still open,
or ends while none is open.  `openAfter t = some k` therefore certifies that
the execution windows of `t` are pairwise non-overlapping. -/
def evOpen : Option Nat → Ev → Option Nat
  | some n, Ev.execBegin _ => if n = 0 then some 1 else none
  | some n, Ev.execEnd _ => if n = 1 then some 0 else none
  | some n, Ev.enqueue _ => some n
  | none, _ => none

def openAfter (t : List Ev) : Option Nat := t.foldl evOpen (some 0)

/-- Number of open execution windows in a state. -/
def execFlag : Option Nat → Nat
  | some _ => 1
  | none => 0

/-- Inductive invariant of the interleaved system: the window automaton
accepts the trace with exactly as many open windows as the worker has items
in flight; the begun ids are the ended ids followed by the in-flight one; and
the enqueued ids are the begun ids followed by the queue contents. -/
def SchedInv (s : Sched) : Prop :=
  openAfter s.trace = some (execFlag s.executing)
  ∧ beginIds s.trace = endIds s.trace ++ s.executing.toList
  ∧ enqIds s.trace = beginIds s.trace ++ s.queue

theorem enqIds_append (a b : List Ev) :
    enqIds (a ++ b) = enqIds a ++ enqIds b := by
  induction a with
  | nil => rfl
  | cons e t ih => cases e <;> simp [enqIds, ih]

theorem beginIds_append (a b : List Ev) :
    beginIds (a ++ b) = beginIds a ++ beginIds b := by
  induction a with
  | nil => rfl
  | cons e t ih => cases e <;> simp [beginIds, ih]

theorem endIds_append (a b : List Ev) :
    endIds (a ++ b) = endIds a ++ endIds b := by
  induction a with
  | nil => rfl
  | cons e t ih => cases e <;> simp [endIds, ih]

theorem reachable_inv {s : Sched} (h : Reachable s) : SchedInv s := by
  induction h with
  | init => exact ⟨rfl, rfl, rfl⟩
  | step _ hstep ih =>
    obtain ⟨h1, h2, h3⟩ := ih
    cases hstep with
    | submit =>
      refine ⟨?_, ?_, ?_⟩
      · simp only [openAfter, List.foldl_append, List.foldl_cons,
          List.foldl_nil] at h1 ⊢
        simp [h1, evOpen]
      · simpa [beginIds_append, endIds_append, beginIds, endIds] using h2
      · simp [enqIds_append, beginIds_append, enqIds, beginIds, h3]
    | pop i rest hq hx =>
      rw [hx] at h1 h2
      refine ⟨?_, ?_, ?_⟩
      · simp only [openAfter, List.foldl_append, List.foldl_cons,
          List.foldl_nil] at h1 ⊢
        simp only [execFlag] at h1
        simp [h1, evOpen, execFlag]
      · simp [beginIds_append, endIds_append, beginIds, endIds, h2]
      · rw [hq] at h3
        simp [enqIds_append, beginIds_append, enqIds, beginIds, h3]
    | finish i hx =>
      rw [hx] at h1 h2
      refine ⟨?_, ?_, ?_⟩
      · simp only [openAfter, List.foldl_append, List.foldl_cons,
          List.foldl_nil] at h1 ⊢
        simp only [execFlag] at h1
        simp [h1, evOpen, execFlag]
      · simp [beginIds_append, endIds_append, beginIds, endIds, h2]
      · simp [enqIds_append, beginIds_append, enqIds, beginIds, h3]

theorem runDrain_eq_map (items : List WorkItem) :
    runDrain items = items.map runItem := by
  induction items with
  | nil => rfl
  | cons it rest ih => simp [runDrain, ih]

theorem runDrain_append (a b : List WorkItem) :
    runDrain (a ++ b) = runDrain a ++ runDrain b := by
  simp [runDrain_eq_map]

theorem runItem_targetLoop (it : WorkItem) :
    (runItem it).targetLoop = it.loopId := by
  cases it with
  | mk fid lid fn => cases fn <;> rfl

/-- C1: in every reachable state of the interleaved system, the worker has
executed operations strictly one at a time — the window automaton accepts the
trace, so no two execution windows overlap — and in exact FIFO enqueue order
across all callers combined: the ids whose execution has begun are an initial
segment of the ids enqueued, in the same order, so no item is executed before
an item enqueued earlier. -/
theorem c1_fifo_serial_execution {s : Sched} (h : Reachable s) :
    (openAfter s.trace).isSome = true
    ∧ ∃ r, enqIds s.trace = beginIds s.trace ++ r := by
  obtain ⟨h1, _, h3⟩ := reachable_inv h
  exact ⟨by simp [h1], ⟨s.queue, h3⟩⟩

/-- A concrete reachable state: two submissions, then the worker pops and
finishes the first item. -/
def schedW : Sched :=
  ⟨2, [1], none, [Ev.enqueue 0, Ev.enqueue 1, Ev.execBegin 0, Ev.execEnd 0]⟩

/-- Witness for C1 at the concrete reachable state `schedW`. -/
theorem c1_fifo_serial_execution_witness :
    (openAfter schedW.trace).isSome = true
    ∧ ∃ r, enqIds schedW.trace = beginIds schedW.trace ++ r := by
  apply c1_fifo_serial_execution
  exact Reachable.step
    (Reachable.step
      (Reachable.step (Reachable.step Reachable.init (SchedStep.submit _))
        (SchedStep.submit _))
      (SchedStep.pop _ 0 [1] rfl rfl))
    (SchedStep.finish _ 0 rfl)

/-- C2: whenever `_running` is false or no underlying connection is held —
in particular after `close()` has completed — `_execute` raises
`ValueError("Connection closed")` synchronously and leaves the connection
state, including the task queue, unchanged: nothing is enqueued. -/
theorem c2_closed_rejection (s : Connection) (callerLoop : Nat)
    (fn : Except PyErr Nat)
    (h : s._running = false ∨ s._connection = none) :
    s._execute callerLoop fn = (s, Except.error ⟨"Connection closed", true⟩) := by
  rcases h with h | h <;> simp [Connection._execute, h]

/-- A connection after `close()` has completed: `_running` false, no handle. -/
def closedConn : Connection :=
  { _running := false, _connection := none, _connector := Except.ok 7,
    _tx := [], nextFut := 0, started := true }

/-- Witness for C2 at the concrete closed connection `closedConn`. -/
theorem c2_closed_rejection_witness :
    closedConn._execute 0 (Except.ok 1)
      = (closedConn, Except.error ⟨"Connection closed", true⟩) :=
  c2_closed_rejection closedConn 0 (Except.ok 1) (Or.inl rfl)

/-- C3: for every open connection (a handle is stored and `_running` is
true), `close()` always ends with `_running = false` and the handle cleared —
the `finally` block runs whether the queued teardown succeeded or raised —
and the teardown outcome, failure included, is exactly what `close()` reports
to its caller, never swallowed. -/
theorem c3_close_always_closed (s : Connection) (h : Nat)
    (teardown : Except PyErr Unit) (hconn : s._connection = some h)
    (hrun : s._running = true) :
    (s.close teardown).1._running = false
    ∧ (s.close teardown).1._connection = none
    ∧ (s.close teardown).2 = teardown := by
  simp [Connection.close, hconn, hrun]

/-- An open connection with a stored handle. -/
def openConn : Connection :=
  { _running := true, _connection := some 5, _connector := Except.ok 5,
    _tx := [], nextFut := 4, started := true }

/-- Witness for C3 at the concrete open connection `openConn`, with a
teardown operation that raises. -/
theorem c3_close_always_closed_witness :
    (openConn.close (Except.error ⟨"close failed", true⟩)).1._running = false
    ∧ (openConn.close (Except.error ⟨"close failed", true⟩)).1._connection = none
    ∧ (openConn.close (Except.error ⟨"close failed", true⟩)).2
        = Except.error ⟨"close failed", true⟩ :=
  c3_close_always_closed openConn 5 (Except.error ⟨"close failed", true⟩) rfl rfl

/-- C4: the worker loop terminates exactly when a dequeue times out while
`_running` is false and the queue is empty — with a nonempty queue it keeps
dequeuing and executing regardless of `_running` — and draining a queue
resolves every item, one callback each, in order; in particular for a queue
of items followed by the teardown item that `close()` enqueued last, every
earlier item's resolution is produced before the teardown's, so all items
submitted before `close()` resolve before `close()` completes. -/
theorem c4_drain_until_empty_then_terminate :
    (∀ (running : Bool) (tx : List WorkItem),
        runStep running tx = StepResult.terminated
          ↔ (running = false ∧ tx = []))
    ∧ (∀ items : List WorkItem, runDrain items = items.map runItem)
    ∧ (∀ (items : List WorkItem) (closeItem : WorkItem),
        runDrain (items ++ [closeItem])
          = runDrain items ++ [runItem closeItem]) := by
  refine ⟨?_, runDrain_eq_map, ?_⟩
  · intro running tx
    cases tx <;> cases running <;> simp [runStep]
  · intro items closeItem
    simp [runDrain_append, runDrain]

/-- C5: a queued item whose operation raises is resolved with that failure,
delivered through the same callback mechanism as a success, and the loop
carries on with the remaining items exactly as it would have: one failing
operation never terminates the loop or changes what the other items get. -/
theorem c5_failure_isolated (fid lid : Nat) (e : PyErr)
    (rest : List WorkItem) :
    runDrain (⟨fid, lid, Except.error e⟩ :: rest)
      = ⟨lid, fid, Except.error e⟩ :: runDrain rest
    ∧ (runDrain (⟨fid, lid, Except.error e⟩ :: rest)).length
        = rest.length + 1 := by
  refine ⟨rfl, ?_⟩
  simp [runDrain, runDrain_eq_map]

/-- C6: resolving an already-resolved completion handle is a no-op and never
an error: when the future is already done — including one abandoned or
cancelled by its caller — both guarded resolution paths of the worker loop
leave it exactly as it was. -/
theorem c6_resolve_already_done_noop (fut : Future) (v : Nat) (e : PyErr)
    (hdone : fut.done = true) :
    set_result fut v = fut ∧ set_exception fut e = fut := by
  simp [set_result, set_exception, hdone]

/-- An already-resolved future. -/
def doneFut : Future := { done := true, result := some (Except.ok 3) }

/-- Witness for C6 at the concrete resolved future `doneFut`. -/
theorem c6_resolve_already_done_noop_witness :
    set_result doneFut 7 = doneFut
    ∧ set_exception doneFut ⟨"late", true⟩ = doneFut :=
  c6_resolve_already_done_noop doneFut 7 ⟨"late", true⟩ rfl

/-- A fresh, never-awaited connection whose connector succeeds with handle 7. -/
def freshConn : Connection :=
  { _running := true, _connection := none, _connector := Except.ok 7,
    _tx := [], nextFut := 0, started := false }

/-- C7 counterexample: the first await of `freshConn` succeeds, but a second
await of the already-successfully-connected connection does not return the
connection — `__await__` calls `Thread.start()` again, which raises
`RuntimeError("threads can only be started once")` — refuting the claim that
a subsequent await succeeds. -/
theorem c7_second_await_fails :
    (freshConn.await_ 0).2 = Except.ok ()
    ∧ ((freshConn.await_ 0).1.await_ 0).2
        = Except.error ⟨"threads can only be started once", true⟩ :=
  ⟨rfl, rfl⟩

/-- C7 amended: the first await of a fresh connection transitions it to
connected — the thread is marked started and the handle produced by running
the bootstrap item through the worker (`runItem`) is stored — and
idempotency-on-success holds at the `_connect` level: calling `_connect`
again on the connected state returns the same connection with no side
effects and enqueues nothing.  (Awaiting the `Connection` object itself a
second time instead raises `RuntimeError` from `Thread.start()`.) -/
theorem c7_connect_idempotent_amended (s : Connection) (callerLoop h : Nat)
    (hst : s.started = false) (hc : s._connection = none)
    (hok : s._connector = Except.ok h) :
    (s.await_ callerLoop).2 = Except.ok ()
    ∧ (s.await_ callerLoop).1._connection = some h
    ∧ (s.await_ callerLoop).1.started = true
    ∧ (s.await_ callerLoop).1._connect callerLoop
        = ((s.await_ callerLoop).1, Except.ok ()) := by
  simp [Connection.await_, Connection.start, Connection._connect, runItem,
    hst, hc, hok]

/-- Witness for the amended C7 at the concrete fresh connection `freshConn`. -/
theorem c7_connect_idempotent_amended_witness :
    (freshConn.await_ 0).2 = Except.ok ()
    ∧ (freshConn.await_ 0).1._connection = some 7
    ∧ (freshConn.await_ 0).1.started = true
    ∧ (freshConn.await_ 0).1._connect 0
        = ((freshConn.await_ 0).1, Except.ok ()) :=
  c7_connect_idempotent_amended freshConn 0 7 rfl rfl rfl

/-- A bare `BaseException` (not an instance of `Exception`). -/
def kbInterrupt : PyErr := ⟨"KeyboardInterrupt", false⟩

/-- A fresh connection whose connector raises `KeyboardInterrupt`. -/
def kbConn : Connection :=
  { _running := true, _connection := none,
    _connector := Except.error kbInterrupt,
    _tx := [], nextFut := 0, started := false }

/-- C8 counterexample: when the bootstrap operation fails with a bare
`BaseException` (`KeyboardInterrupt`), the failure does propagate to the
awaiter, but `_connect`'s `except Exception:` clause never runs: `_running`
stays true — not false as the claim states — and the worker loop, idle on an
empty queue, is left running instead of terminating. -/
theorem c8_base_exception_leaves_running :
    (kbConn.await_ 0).2 = Except.error kbInterrupt
    ∧ (kbConn.await_ 0).1._running = true
    ∧ runStep (kbConn.await_ 0).1._running [] = StepResult.idle :=
  ⟨rfl, rfl, rfl⟩

/-- C8 amended: if the bootstrap operation fails with an `Exception`-level
failure (the only kind `except Exception:` catches — a bare `BaseException`
instead leaves the state untouched, see C10), the failure propagates to the
awaiting caller, `_running` is set to false, no connection handle is stored,
and the worker loop, finding the queue empty with `_running` false,
terminates: no worker loop is left running. -/
theorem c8_bootstrap_failure_amended (s : Connection) (callerLoop : Nat)
    (e : PyErr) (hst : s.started = false) (hc : s._connection = none)
    (herr : s._connector = Except.error e) (hexc : e.isExc = true) :
    (s.await_ callerLoop).2 = Except.error e
    ∧ (s.await_ callerLoop).1._running = false
    ∧ (s.await_ callerLoop).1._connection = none
    ∧ runStep (s.await_ callerLoop).1._running [] = StepResult.terminated := by
  simp [Connection.await_, Connection.start, Connection._connect, runItem,
    runStep, hst, hc, herr, hexc]

/-- An `Exception`-level bootstrap failure. -/
def bootErr : PyErr := ⟨"IO Error: database file not found", true⟩

/-- A fresh connection whose connector raises an `Exception`-level failure. -/
def bootFailConn : Connection :=
  { _running := true, _connection := none, _connector := Except.error bootErr,
    _tx := [], nextFut := 0, started := false }

/-- Witness for the amended C8 at the concrete connection `bootFailConn`. -/
theorem c8_bootstrap_failure_amended_witness :
    (bootFailConn.await_ 0).2 = Except.error bootErr
    ∧ (bootFailConn.await_ 0).1._running = false
    ∧ (bootFailConn.await_ 0).1._connection = none
    ∧ runStep (bootFailConn.await_ 0).1._running []
        = StepResult.terminated :=
  c8_bootstrap_failure_amended bootFailConn 0 bootErr rfl rfl rfl rfl

/-- C9: every resolution the worker loop emits is a `call_soon_threadsafe`
message addressed to the event loop the item's future is bound to — never a
direct write from the worker's own thread — and `_execute` binds that future
to the loop of the caller that submitted it, so each caller, on whatever
scheduler, gets exactly one resolution callback delivered on its own
scheduler: the drain of a queue emits exactly one callback per item, each
targeting that item's own loop, and a submission from `callerLoop` enqueues
an item bound to `callerLoop` whose callback targets `callerLoop`. -/
theorem c9_resolution_on_caller_loop (s : Connection) (callerLoop h : Nat)
    (fn : Except PyErr Nat) (hrun : s._running = true)
    (hconn : s._connection = some h) :
    (∀ items : List WorkItem,
        (runDrain items).map Callback.targetLoop
          = items.map WorkItem.loopId)
    ∧ (s._execute callerLoop fn).1._tx
        = s._tx ++ [⟨s.nextFut, callerLoop, fn⟩]
    ∧ (runItem ⟨s.nextFut, callerLoop, fn⟩).targetLoop = callerLoop
    ∧ runDrain ((s._execute callerLoop fn).1._tx)
        = runDrain s._tx ++ [runItem ⟨s.nextFut, callerLoop, fn⟩] := by
  refine ⟨?_, ?_, runItem_targetLoop _, ?_⟩
  · intro items
    simp [runDrain_eq_map, Function.comp, runItem_targetLoop]
  · simp [Connection._execute, hrun, hconn]
  · simp [Connection._execute, hrun, hconn, runDrain_append, runDrain]

/-- Witness for C9 at the concrete open connection `openConn`, submitting
from event loop 3. -/
theorem c9_resolution_on_caller_loop_witness :
    (∀ items : List WorkItem,
        (runDrain items).map Callback.targetLoop
          = items.map WorkItem.loopId)
    ∧ (openConn._execute 3 (Except.ok 9)).1._tx
        = openConn._tx ++ [⟨openConn.nextFut, 3, Except.ok 9⟩]
    ∧ (runItem ⟨openConn.nextFut, 3, Except.ok 9⟩).targetLoop = 3
    ∧ runDrain ((openConn._execute 3 (Except.ok 9)).1._tx)
        = runDrain openConn._tx
            ++ [runItem ⟨openConn.nextFut, 3, Except.ok 9⟩] :=
  c9_resolution_on_caller_loop openConn 3 5 (Except.ok 9) rfl rfl

/-- C10: the worker loop's failure capture covers every raisable failure —
`except BaseException:` — so an operation raising even a bare
`BaseException` such as `KeyboardInterrupt` has that failure delivered to
its item's callback and the loop continues with the remaining items; whereas
the bootstrap path in `_connect` resets `_running` to false only when the
failure is an `Exception`-level one. -/
theorem c10_run_catches_base_exception (fid lid : Nat) (e : PyErr)
    (rest : List WorkItem) (s : Connection) (callerLoop : Nat)
    (hc : s._connection = none) (hrun : s._running = true)
    (herr : s._connector = Except.error e) :
    runDrain (⟨fid, lid, Except.error e⟩ :: rest)
      = ⟨lid, fid, Except.error e⟩ :: runDrain rest
    ∧ ((s._connect callerLoop).1._running = false ↔ e.isExc = true) := by
  refine ⟨rfl, ?_⟩
  cases he : e.isExc <;>
    simp [Connection._connect, runItem, hc, herr, he, hrun]

/-- Witness for C10 at the concrete connection `kbConn`, with the bare
`BaseException` `kbInterrupt`. -/
theorem c10_run_catches_base_exception_witness :
    runDrain (⟨1, 2, Except.error kbInterrupt⟩ :: ([] : List WorkItem))
      = ⟨2, 1, Except.error kbInterrupt⟩ :: runDrain []
    ∧ ((kbConn._connect 0).1._running = false ↔ kbInterrupt.isExc = true) :=
  c10_run_catches_base_exception 1 2 kbInterrupt [] kbConn 0 rfl rfl rfl

end Aioduckdb
